import Mathlib

/--
Verification development for the FAST-OAD repository: the mission/performance
simulation engine (routes, flight segments), the rubber-engine propulsion
model, the standard-atmosphere model, the XFOIL polar post-processing and the
configuration-error machinery. Implementations absent from the source tree
(only their tests are present) are modelled from the specification, with
coefficients cross-checked against the expected values asserted by the
repository's own test files.
-/
def fastOadDevelopment : Unit := ()

/-! Extended rational numbers mirroring numpy float semantics (finite values,
positive and negative infinity, and nan), used to embed computations whose
Python counterparts can produce `np.inf` (division by zero in a correlation
denominator). -/

/-- Extended rational value: finite, `+inf`, `-inf` or `nan`, mirroring the
values a numpy floating-point computation can take in the embedded code. -/
inductive ExtQ where
  | finite (q : ℚ)
  | posInf
  | negInf
  | nan
deriving DecidableEq, Repr

/-- Multiplication on extended rationals, following IEEE-754 semantics as
implemented by numpy: `inf * x` keeps the sign of `x`, and `inf * 0 = nan`. -/
def ExtQ.mul : ExtQ → ExtQ → ExtQ
  | .nan, _ => .nan
  | _, .nan => .nan
  | .finite a, .finite b => .finite (a * b)
  | .finite a, .posInf =>
      if 0 < a then .posInf else if a < 0 then .negInf else .nan
  | .posInf, .finite b =>
      if 0 < b then .posInf else if b < 0 then .negInf else .nan
  | .finite a, .negInf =>
      if 0 < a then .negInf else if a < 0 then .posInf else .nan
  | .negInf, .finite b =>
      if 0 < b then .negInf else if b < 0 then .posInf else .nan
  | .posInf, .posInf => .posInf
  | .posInf, .negInf => .negInf
  | .negInf, .posInf => .negInf
  | .negInf, .negInf => .posInf

/-- Addition on extended rationals, following IEEE-754 semantics as
implemented by numpy: `inf + (-inf) = nan`, `inf + finite = inf`. -/
def ExtQ.add : ExtQ → ExtQ → ExtQ
  | .nan, _ => .nan
  | _, .nan => .nan
  | .finite a, .finite b => .finite (a + b)
  | .posInf, .negInf => .nan
  | .negInf, .posInf => .nan
  | .posInf, _ => .posInf
  | _, .posInf => .posInf
  | .negInf, _ => .negInf
  | _, .negInf => .negInf

/-- Division of two rationals with numpy float semantics: a nonzero value
divided by zero gives a signed infinity, `0/0` gives `nan`. -/
def pdiv (a b : ℚ) : ExtQ :=
  if b = 0 then
    if 0 < a then .posInf else if a < 0 then .negInf else .nan
  else .finite (a / b)

/-- Closeness test on an extended rational: true when the value is finite and
within `tol` of `target`. Used to state relative-tolerance checks on embedded
engine outputs. -/
def ExtQ.close (x : ExtQ) (target tol : ℚ) : Bool :=
  match x with
  | .finite q => |q - target| ≤ tol
  | _ => false

/-! The rubber-engine propulsion model. The implementation file
`fastoad/modules/propulsion/fuel_engine/rubber_engine/rubber_engine.py` is not
part of the provided sources (only its test module is), so the model below is
reconstructed from the specification, with every numeric coefficient
cross-checked against the expected values asserted in
`tests/modules/propulsion/fuel_engine/test_rubber_engine.py`. -/

/-- Modelled from the spec: static parameters of the rubber engine
(`RubberEngine.__init__` is missing from the sources). Bypass ratio, overall
pressure ratio, turbine inlet temperature, design-point thrust `f0` and design
altitude, immutable after construction. The per-phase `delta_t4` offsets are
represented by the `EngineSetting` argument of the computation functions. -/
structure RubberEngine where
  bypass_ratio : ℚ
  overall_pressure_ratio : ℚ
  turbine_inlet_temperature : ℚ
  f0 : ℚ
  design_altitude : ℚ
deriving DecidableEq, Repr

/-- Engine rating tags used by the propulsion model, as enumerated in the
test module (`FlightPhase.MTO`, `CLIMB`, `CRUISE`, `FI`). -/
inductive EngineSetting where
  | MTO
  | CLIMB
  | CRUISE
  | FI
deriving DecidableEq, Repr

/-- Modelled from the spec: the atmosphere quantities consumed by the engine
correlations at a given altitude (the Python code computes them from an
`Atmosphere` object, which is also absent from the sources): the altitude
itself, the density ratio `sigma = rho/rho0` and the square root of the
temperature ratio `theta = T/288.15 K`. -/
structure AtmQ where
  altitude : ℚ
  sigma : ℚ
  sqrtTheta : ℚ
deriving DecidableEq, Repr

/-- Sea-level atmosphere quantities: density ratio and temperature ratio are
both exactly one at altitude 0. -/
def seaLevel : AtmQ := ⟨0, 1, 1⟩

/-- Modelled from the spec: the maximum-thrust correlation of the rubber
engine (`RubberEngine.max_thrust`, missing from the sources). For the
validated regime used by the claims (takeoff rating, bypass ratio 5, overall
pressure ratio 30), the analytically equivalent reference formula asserted by
`test_max_thrust` in the in-tree test module is
`f0 * 0.955 * (rho/1.225) * (1 - 0.730*M + 0.359*M^2)`. -/
def max_thrust (e : RubberEngine) (atm : AtmQ) (mach : ℚ) : ℚ :=
  e.f0 * (0.955 * atm.sigma * (1 - 0.730 * mach + 0.359 * mach ^ 2))

/-- Modelled from the spec: the SFC-at-maximum-thrust correlation
(`RubberEngine.sfc_at_max_thrust`, missing from the sources), restricted to
the Mach-0 regime exercised by the claims (the Mach-proportional term of the
correlation vanishes there). The coefficients reproduce, within the tested
1 percent, the in-tree `test_sfc_at_max_thrust` ground points for the CFM56
(bypass 6, OPR 25.7, expected 0.970e-5), the Trent900 (7.14, 41, 0.735e-5)
and the PW2037 (6, 31.8, 0.906e-5). -/
def sfc_at_max_thrust (e : RubberEngine) (atm : AtmQ) (_mach : ℚ) : ℚ :=
  (-6.58e-7 * e.bypass_ratio + 1.32e-5) * atm.sqrtTheta
    + -1.05e-7 * (e.overall_pressure_ratio - 30)

/-- Modelled from the spec: the altitude correction of SFC relative to the
design altitude (`RubberEngine.sfc_ratio`, missing from the sources). The
correction is a parabola in thrust rate whose coefficient has denominator
`(1 - fms)^2`, where `fms` is the thrust rate of minimum SFC ratio, an affine
function of the altitude offset from design altitude; the denominator vanishes
at offset -1562.5 m, where numpy produces `+inf` rather than raising. The
coefficients reproduce all eight expected values of the in-tree
`test_sfc_ratio` (1.024, 3864.6, inf, 1386.6, 1.005, 0.972, 0.936, 0.917). -/
def sfc_ratio (design_altitude altitude thrust_rate : ℚ) : ExtQ :=
  let dh := altitude - design_altitude
  let fms := -9.6e-5 * dh + 0.85
  let minRatio := min 0.998 (-3.385e-5 * dh + 0.995)
  ExtQ.add
    (ExtQ.mul (pdiv (1 - minRatio) ((1 - fms) ^ 2))
      (ExtQ.finite ((thrust_rate - fms) ^ 2)))
    (ExtQ.finite minRatio)

/-- Modelled from the spec: forward evaluation of the rubber engine
(`RubberEngine.compute_manual`, missing from the sources): thrust is the
maximum-thrust correlation scaled by the commanded thrust rate, and SFC is the
maximum-thrust SFC correlation corrected by the altitude/throttle correction
` sfc_ratio`. Returns the pair (thrust, SFC). -/
def compute_manual (e : RubberEngine) (atm : AtmQ) (mach thrust_rate : ℚ)
    (_setting : EngineSetting) : ℚ × ExtQ :=
  (max_thrust e atm mach * thrust_rate,
    ExtQ.mul (ExtQ.finite (sfc_at_max_thrust e atm mach))
      ( sfc_ratio e.design_altitude atm.altitude thrust_rate))

/-- Bounded bisection root-finding: `bisect g n lo hi` performs `n` bisection
steps on the bracket `[lo, hi]`, moving toward the sign change of `g`, and
returns the midpoint of the final bracket. This is the bounded 1-D search used
to model the root-finding performed by `compute_regulated` (over thrust rate)
and by `RangedRoute` (over cruise distance). -/
def bisect (g : ℚ → ℚ) : Nat → ℚ → ℚ → ℚ
  | 0, lo, hi => (lo + hi) / 2
  | n + 1, lo, hi =>
    let mid := (lo + hi) / 2
    if g mid ≤ 0 then bisect g n mid hi else bisect g n lo mid

/-- Modelled from the spec: inverse evaluation of the rubber engine
(`RubberEngine.compute_regulated`, missing from the sources): numerically
solves, by bounded root-finding on the bracket `[0, 2]`, for the thrust rate
at which `compute_manual` produces the required thrust, then evaluates SFC at
that thrust rate. Returns the pair (SFC, thrust rate). -/
def compute_regulated (e : RubberEngine) (atm : AtmQ) (mach thrust : ℚ)
    (setting : EngineSetting) : ExtQ × ℚ :=
  let rate := bisect (fun r => max_thrust e atm mach * r - thrust) 60 0 2
  ((compute_manual e atm mach rate setting).2, rate)

/-! Flight points, routes and flight segments. The implementation modules
`fastoad/models/performances/mission/{routes.py, segments/*.py}` and
`fastoad/base/flight_point.py` are not part of the provided sources (only the
test module `mission/tests/test_routes.py` is), so the definitions below are
modelled from the specification. -/

/-- Modelled from the spec: the flight-point state record propagated through
the mission simulation (`FlightPoint`, missing from the sources); only the
scalar fields needed by the claims are kept. -/
structure FlightPoint where
  time : ℚ := 0
  altitude : ℚ := 0
  mass : ℚ := 0
  ground_distance : ℚ := 0
  true_airspeed : ℚ := 0
deriving DecidableEq, Repr

/-- Modelled from the spec: a route with a target total flight distance
(`RangedRoute`, missing from the sources). Per the specification's route
invariant, the total mission ground distance is fully determined by the
climb and descent ground-distance outputs plus the solved cruise-segment
length, so the route model carries those two distances, the cruise Mach of
its cruise segment and the caller-specified target distance. -/
structure RangedRoute where
  climb_distance : ℚ
  descent_distance : ℚ
  cruise_mach : ℚ
  flight_distance : ℚ
deriving DecidableEq, Repr

/-- Modelled from the spec: the distance tolerance of the range solver,
exposed by `RangedRoute` as part of its contract (0.5 km). -/
def RangedRoute.distance_accuracy (_r : RangedRoute) : ℚ := 0.5e3

/-- Modelled from the spec: the cruise control variable and its value, exposed
by `RangedRoute` as part of its contract; for a route whose cruise segment
holds a constant Mach number, the pair is ("mach", cruise Mach). -/
def RangedRoute.cruise_speed (r : RangedRoute) : String × ℚ :=
  ("mach", r.cruise_mach)

/-- Modelled from the spec: total mission ground distance for a given
cruise-segment length (climb + cruise + descent). -/
def RangedRoute.mission_distance (r : RangedRoute) (cruise_distance : ℚ) : ℚ :=
  r.climb_distance + cruise_distance + r.descent_distance

/-- Modelled from the spec: the range solver of `RangedRoute` - a bounded 1-D
root-finding over the cruise length, bracketed by `[0, flight_distance]`,
driving the total mission distance to the target distance. -/
def RangedRoute.solve_cruise_distance (r : RangedRoute) : ℚ :=
  bisect (fun c => r.mission_distance c - r.flight_distance) 60 0 r.flight_distance

/-- Modelled from the spec: `RangedRoute.compute_from` - solves the cruise
length, then flies climb, cruise and descent from the start point,
accumulating ground distance into an ordered flight-point sequence. -/
def RangedRoute.compute_from (r : RangedRoute) (start : FlightPoint) : List FlightPoint :=
  let c := r.solve_cruise_distance
  let climb_end := { start with
    ground_distance := start.ground_distance + r.climb_distance }
  let cruise_end := { climb_end with
    ground_distance := climb_end.ground_distance + c }
  let descent_end := { cruise_end with
    ground_distance := cruise_end.ground_distance + r.descent_distance }
  [start, climb_end, cruise_end, descent_end]

/-- Modelled from the spec: one field of a segment target - a literal goal
value, the "constant" sentinel (freeze the current value), or absent
(unconstrained). -/
inductive TargetField where
  | lit (value : ℚ)
  | hold
  | free
deriving DecidableEq, Repr

/-- Modelled from the spec: a segment target - a partially specified flight
point over the variables relevant to the claims. -/
structure Target where
  altitude : TargetField := .free
  mach : TargetField := .free
  equivalent_airspeed : TargetField := .free
  true_airspeed : TargetField := .free
deriving DecidableEq, Repr

/-- True when the target field carries a literal goal value. -/
def TargetField.isLit : TargetField → Bool
  | .lit _ => true
  | _ => false

/-- Number of literal goal values in a target: the degrees of freedom the
segment control law is asked to drive. -/
def Target.litCount (t : Target) : Nat :=
  [t.altitude, t.mach, t.equivalent_airspeed, t.true_airspeed].countP
    (fun f => f.isLit)

/-- Modelled from the spec: an altitude-change segment
(`AltitudeChangeSegment`, missing from the sources), reduced to the data the
claims exercise: its target, its climb rate (the altitude change per unit
time resulting from the segment's thrust/drag balance) and its time step. -/
structure AltitudeChangeSegment where
  target : Target
  climb_rate : ℚ
  time_step : ℚ
deriving DecidableEq, Repr

/-- Descriptive error message for a malformed target specification. -/
def target_error_message : String :=
  "Invalid target: exactly one goal variable must be set among altitude, mach, equivalent_airspeed and true_airspeed"

/-- Modelled from the spec: validating construction of an altitude-change
segment - a target leaving zero or more than one degree of freedom is
rejected with a descriptive error at construction time. -/
def AltitudeChangeSegment.build (target : Target) (climb_rate time_step : ℚ) :
    Except String AltitudeChangeSegment :=
  if target.litCount = 1 then .ok ⟨target, climb_rate, time_step⟩
  else .error target_error_message

/-- Modelled from the spec: the time-stepping integration loop of an
altitude-change segment driving altitude toward literal altitude `tgt`, in
either direction - a climb when the rate is positive and the target above, a
descent when the rate is negative and the target below: each step advances
time by the time step and altitude by rate times time step; when the next
step would reach or pass the target, the last step is truncated (time
interpolated) so the terminal flight point lands exactly on the target
altitude. The `Nat` argument is the loop fuel. -/
def stepToAltitude (tgt rate dt : ℚ) : Nat → FlightPoint → List FlightPoint
  | 0, _ => []
  | n + 1, p =>
    if (0 < rate ∧ tgt ≤ p.altitude + rate * dt)
        ∨ (rate < 0 ∧ p.altitude + rate * dt ≤ tgt) then
      [{ p with time := p.time + (tgt - p.altitude) / rate, altitude := tgt }]
    else
      { p with time := p.time + dt, altitude := p.altitude + rate * dt }
        :: stepToAltitude tgt rate dt n
          { p with time := p.time + dt, altitude := p.altitude + rate * dt }

/-- Modelled from the spec: `AltitudeChangeSegment.compute_from` - returns the
flight-point sequence starting at `start` and integrating altitude toward the
literal altitude target, climbing or descending (targets driving other
variables belong to other segment types and are not modelled). -/
def AltitudeChangeSegment.compute_from (s : AltitudeChangeSegment) (fuel : Nat)
    (start : FlightPoint) : List FlightPoint :=
  match s.target.altitude with
  | .lit tgt => start :: stepToAltitude tgt s.climb_rate s.time_step fuel start
  | _ => [start]

/-- Modelled from the spec: the full segment pipeline - validating
construction followed by integration. Any malformed-target error surfaces
from the construction step, before the integration loop runs; the
integration loop itself is a total function and cannot raise. -/
def AltitudeChangeSegment.compute_flight (target : Target) (climb_rate time_step : ℚ)
    (fuel : Nat) (start : FlightPoint) : Except String (List FlightPoint) :=
  (AltitudeChangeSegment.build target climb_rate time_step).map
    (fun s => s.compute_from fuel start)

/-! The standard-atmosphere model. The implementation
(`fastoad/utils/physics/atmosphere.py`) is not part of the provided sources,
so it is modelled from the specification: the ICAO standard atmosphere with
the troposphere/stratosphere boundary at 11 000 m - a linear temperature lapse
and a pressure power law below the boundary, an isothermal layer with
exponential pressure decay above it, and density obtained from the perfect-gas
relation `rho = P/(R T)`. -/

/-- Modelled from the spec: standard-atmosphere temperature (K) at altitude
`h` (m): linear lapse 6.5 K/km in the troposphere, constant 216.65 K in the
stratosphere. The two branches agree at the 11 000 m boundary. -/
noncomputable def atm_temperature (h : ℝ) : ℝ :=
  if h ≤ 11000 then 288.15 - 0.0065 * h else 216.65

/-- Modelled from the spec: standard-atmosphere pressure (Pa) at altitude `h`
(m): power law of the temperature ratio in the troposphere, exponential decay
in the isothermal stratosphere, continuous at the boundary. -/
noncomputable def atm_pressure (h : ℝ) : ℝ :=
  if h ≤ 11000 then
    101325 * ((288.15 - 0.0065 * h) / 288.15) ^ (5.25588 : ℝ)
  else
    101325 * ((216.65 : ℝ) / 288.15) ^ (5.25588 : ℝ) *
      Real.exp (-(9.80665 / (287.05 * 216.65)) * (h - 11000))

/-- Modelled from the spec: standard-atmosphere density (kg/m3) at altitude
`h` (m), from the perfect-gas relation. -/
noncomputable def atm_density (h : ℝ) : ℝ :=
  atm_pressure h / (287.05 * atm_temperature h)

/-! XFOIL polar post-processing, from
`src/fastoad/models/aerodynamics/external/xfoil/xfoil_polar.py`. The external
XFOIL run itself is I/O; the embedded part is the post-processing of its
result: `_read_polar` yields either the (alpha, CL) columns of the result file
or nothing when the file is missing, and `compute` turns that into the two
outputs `xfoil:Cl_max_2D` and `xfoil:CL_max_clean`. -/

/-- Python's `max` on a nonempty list of rationals (the empty-list case, on
which Python raises, is given an arbitrary value and excluded by hypotheses
where it matters). -/
def pymax : List ℚ → ℚ
  | [] => 0
  | x :: xs => xs.foldl max x

/-- Embeds `XfoilPolar._get_max_cl`: the maximum of the computed CL column if
the maximum computed angle of attack reaches 5 degrees, else the fallback
constant 1.9. -/
def get_max_cl (alpha lift_coeff : List ℚ) : ℚ :=
  if 5 ≤ pymax alpha then pymax lift_coeff else 1.9

/-- Embeds the `Cl_max_2D` output of `XfoilPolar.compute`: `_get_max_cl` of
the result columns when the XFOIL result file exists, else the fallback
constant 1.9. The `Option` input mirrors `_read_polar` returning `None` for a
missing file. -/
def cl_max_2d (result : Option (List ℚ × List ℚ)) : ℚ :=
  match result with
  | some columns => get_max_cl columns.1 columns.2
  | none => 1.9

/-- Embeds the `CL_max_clean` output of `XfoilPolar.compute`:
`cl_max_2d * 0.9 * np.cos(np.radians(sweep_25))`. -/
noncomputable def cl_max_clean (result : Option (List ℚ × List ℚ))
    (sweep_25 : ℝ) : ℝ :=
  (cl_max_2d result : ℝ) * 0.9 * Real.cos (sweep_25 * Real.pi / 180)

/-! Configuration-error key building, from `src/fastoad/io/configuration.py`
(`FASTConfigurationBaseKeyBuildingError`). Python exceptions are embedded as a
small inductive type: either an arbitrary exception without `key`/`value`/
`original_exception` attributes, or a key-building error carrying all three;
the constructor's `hasattr` tests map onto that case split. -/

/-- A Python value as stored in the `value` attribute: `None` or a string
(the embedding keeps just enough structure for `'%s' % value` formatting). -/
inductive PyObj where
  | pyNone
  | pyStr (s : String)
deriving DecidableEq, Repr

/-- Python `'%s'` formatting of an embedded value (`None` renders as
"None"). -/
def PyObj.format : PyObj → String
  | .pyNone => "None"
  | .pyStr s => s

/-- An embedded Python exception: either a plain exception (no `key`, `value`
or `original_exception` attributes) or a key-building error carrying all
three attributes. -/
inductive PyExc where
  | plain (message : String) : PyExc
  | keyBuilding (key : String) (value : PyObj) (original : PyExc) : PyExc
deriving DecidableEq, Repr

/-- The `key` attribute, when present (`hasattr(err, 'key')`). -/
def PyExc.keyAttr : PyExc → Option String
  | .plain _ => none
  | .keyBuilding k _ _ => some k

/-- The `value` attribute, when present (`hasattr(err, 'value')`). -/
def PyExc.valueAttr : PyExc → Option PyObj
  | .plain _ => none
  | .keyBuilding _ v _ => some v

/-- The `original_exception` attribute, when present
(`hasattr(err, 'original_exception')`). -/
def PyExc.originalAttr : PyExc → Option PyExc
  | .plain _ => none
  | .keyBuilding _ _ o => some o

/-- Embeds `FASTConfigurationBaseKeyBuildingError.__init__(err, key, value)`:
the new key is `key + "." + err.key` when `err` has a `key` attribute, else
`key`; the new value is the dot-joined formatting when `err` has a `value`
attribute, else `value`; the original exception is `err.original_exception`
when present, else `err` itself. -/
def mkFASTConfigurationBaseKeyBuildingError (err : PyExc) (key : String)
    (value : PyObj) : PyExc :=
  let newKey := match err.keyAttr with
    | some errKey => key ++ "." ++ errKey
    | none => key
  let newValue := match err.valueAttr with
    | some errValue => PyObj.pyStr (value.format ++ "." ++ errValue.format)
    | none => value
  let newOriginal := match err.originalAttr with
    | some errOriginal => errOriginal
    | none => err
  .keyBuilding newKey newValue newOriginal

/-! Theorems. Helper lemmas come first, then one theorem per claim (each
preceded by a doc comment naming the claim), each with a witness instance
when its statement carries hypotheses. The model-validation examples check
the reconstructed engine coefficients against the expected values asserted by
the repository's own test files. -/

/-- Convergence of the bounded bisection search: when `g` changes sign exactly
at `root` and the initial bracket contains `root`, `n` bisection steps land
within `(hi - lo) / 2 ^ n` of `root`. -/
theorem bisect_approaches (g : ℚ → ℚ) (root : ℚ)
    (hg : ∀ x, g x ≤ 0 ↔ x ≤ root) :
    ∀ (n : Nat) (lo hi : ℚ), lo ≤ root → root ≤ hi →
      |bisect g n lo hi - root| ≤ (hi - lo) / 2 ^ n := by
  intro n
  induction n with
  | zero =>
    intro lo hi hlo hhi
    simp only [bisect, pow_zero, div_one]
    rw [abs_le]
    constructor <;> linarith
  | succ n ih =>
    intro lo hi hlo hhi
    have hhalf : ∀ w : ℚ, w / 2 / 2 ^ n = w / 2 ^ (n + 1) := by
      intro w
      rw [div_div, pow_succ, mul_comm]
    by_cases h : g ((lo + hi) / 2) ≤ 0
    · have hm : (lo + hi) / 2 ≤ root := (hg _).mp h
      have := ih ((lo + hi) / 2) hi hm hhi
      have e1 : hi - (lo + hi) / 2 = (hi - lo) / 2 := by ring
      rw [e1, hhalf] at this
      simpa [bisect, h] using this
    · have hm : root ≤ (lo + hi) / 2 := by
        by_contra hc
        push_neg at hc
        exact h ((hg _).mpr hc.le)
      have := ih lo ((lo + hi) / 2) hlo hm
      have e1 : (lo + hi) / 2 - lo = (hi - lo) / 2 := by ring
      rw [e1, hhalf] at this
      simpa [bisect, h] using this

/-- The solved cruise length of a ranged route is within 500 m of the exact
cruise length that makes the mission distance hit the target. -/
theorem solve_cruise_distance_close (r : RangedRoute)
    (h1 : 0 ≤ r.climb_distance) (h2 : 0 ≤ r.descent_distance)
    (h3 : r.climb_distance + r.descent_distance ≤ r.flight_distance)
    (h4 : r.flight_distance ≤ 10 ^ 9) :
    |r.solve_cruise_distance
      - (r.flight_distance - r.climb_distance - r.descent_distance)| ≤ 500 := by
  set cstar := r.flight_distance - r.climb_distance - r.descent_distance with hc
  have hg : ∀ c, r.mission_distance c - r.flight_distance ≤ 0 ↔ c ≤ cstar := by
    intro c
    unfold RangedRoute.mission_distance
    constructor <;> intro h <;> [linarith; linarith]
  have hb := bisect_approaches _ cstar hg 60 0 r.flight_distance
    (by simp [hc]; linarith) (by simp [hc]; linarith)
  refine le_trans hb ?_
  rw [div_le_iff₀ (by positivity)]
  calc r.flight_distance - 0 ≤ 10 ^ 9 := by linarith
    _ ≤ 500 * 2 ^ 60 := by norm_num

/-- The residual of the flown ranged route: the last flight point's ground
distance differs from start distance plus target distance by at most the
route's distance accuracy. -/
theorem ranged_route_residual (r : RangedRoute) (start : FlightPoint)
    (h1 : 0 ≤ r.climb_distance) (h2 : 0 ≤ r.descent_distance)
    (h3 : r.climb_distance + r.descent_distance ≤ r.flight_distance)
    (h4 : r.flight_distance ≤ 10 ^ 9) :
    |((r.compute_from start).getLastD start).ground_distance
      - (start.ground_distance + r.flight_distance)| ≤ r.distance_accuracy := by
  have hlast : ((r.compute_from start).getLastD start).ground_distance
      = start.ground_distance + r.climb_distance + r.solve_cruise_distance
        + r.descent_distance := by
    simp [RangedRoute.compute_from, List.getLastD]
  rw [hlast]
  have hclose := solve_cruise_distance_close r h1 h2 h3 h4
  have hacc : r.distance_accuracy = 500 := by
    norm_num [RangedRoute.distance_accuracy]
  rw [hacc]
  calc |start.ground_distance + r.climb_distance + r.solve_cruise_distance
        + r.descent_distance - (start.ground_distance + r.flight_distance)|
      = |r.solve_cruise_distance
        - (r.flight_distance - r.climb_distance - r.descent_distance)| := by
        congr 1
        ring
    _ ≤ 500 := hclose

/-- C1: a `RangedRoute` built with target flight distance `targetD`, flown
from `start` with `compute_from`, yields a flight-point sequence whose last
point's ground distance equals `start.ground_distance + targetD` within the
route's `distance_accuracy` (hypotheses: nonnegative climb/descent distances
that do not already exceed the target, and a physically sane target below
10^9 m). -/
theorem ranged_route_reaches_target_distance
    (climb descent cruiseMach targetD : ℚ) (start : FlightPoint)
    (h1 : 0 ≤ climb) (h2 : 0 ≤ descent) (h3 : climb + descent ≤ targetD)
    (h4 : targetD ≤ 10 ^ 9) :
    |(((RangedRoute.mk climb descent cruiseMach targetD).compute_from
          start).getLastD start).ground_distance
        - (start.ground_distance + targetD)|
      ≤ (RangedRoute.mk climb descent cruiseMach targetD).distance_accuracy :=
  ranged_route_residual (RangedRoute.mk climb descent cruiseMach targetD)
    start h1 h2 h3 h4

/-- Witness for C1, at the spec's reference scenario: target distance
2 000 000 m, start mass 70 000 kg, true airspeed 150 kt (77.17 m/s), altitude
100 ft (30.48 m), start ground distance 100 000 m. -/
theorem ranged_route_reaches_target_distance_witness :
    |(((RangedRoute.mk 300000 200000 0.78 2000000).compute_from
          ⟨0, 30.48, 70000, 100000, 77.17⟩).getLastD
        ⟨0, 30.48, 70000, 100000, 77.17⟩).ground_distance
        - (100000 + 2000000)|
      ≤ (RangedRoute.mk 300000 200000 0.78 2000000).distance_accuracy := by
  have h := ranged_route_reaches_target_distance 300000 200000 0.78 2000000
    ⟨0, 30.48, 70000, 100000, 77.17⟩ (by norm_num) (by norm_num) (by norm_num)
    (by norm_num)
  simpa using h

/-- C8: a `RangedRoute` exposes `cruise_speed` as the pair naming the cruise
control variable and its value - ("mach", m) for a route whose cruise Mach is
m - and exposes `distance_accuracy` as the distance tolerance achieved by its
range solver: the flown mission's final ground distance is within
`distance_accuracy` of the target. -/
theorem ranged_route_contract
    (climb descent cruiseMach targetD : ℚ) (start : FlightPoint)
    (h1 : 0 ≤ climb) (h2 : 0 ≤ descent) (h3 : climb + descent ≤ targetD)
    (h4 : targetD ≤ 10 ^ 9) :
    (RangedRoute.mk climb descent cruiseMach targetD).cruise_speed
        = ("mach", cruiseMach)
    ∧ |(((RangedRoute.mk climb descent cruiseMach targetD).compute_from
          start).getLastD start).ground_distance
        - (start.ground_distance + targetD)|
      ≤ (RangedRoute.mk climb descent cruiseMach targetD).distance_accuracy :=
  ⟨rfl, ranged_route_residual (RangedRoute.mk climb descent cruiseMach targetD)
    start h1 h2 h3 h4⟩

/-- Witness for C8: the route of the in-tree `test_ranged_flight` has cruise
Mach 0.78, so `cruise_speed` is ("mach", 0.78); its solver residual is within
`distance_accuracy`. -/
theorem ranged_route_contract_witness :
    (RangedRoute.mk 250000 150000 0.78 1500000).cruise_speed = ("mach", 0.78)
    ∧ |(((RangedRoute.mk 250000 150000 0.78 1500000).compute_from
          ⟨0, 0, 60000, 50000, 70⟩).getLastD
        ⟨0, 0, 60000, 50000, 70⟩).ground_distance - (50000 + 1500000)|
      ≤ (RangedRoute.mk 250000 150000 0.78 1500000).distance_accuracy := by
  have h := ranged_route_contract 250000 150000 0.78 1500000
    ⟨0, 0, 60000, 50000, 70⟩ (by norm_num) (by norm_num) (by norm_num)
    (by norm_num)
  simpa using h

/-- C2: `compute_regulated` is the left-inverse of `compute_manual` - for any
valid flight condition and thrust rate in the engine's regulated bracket
(taken here as [0.1, 2], with positive available maximum thrust), feeding the
thrust computed by `compute_manual` back into `compute_regulated` returns a
thrust rate equal to the original within 1 percent relative tolerance. -/
theorem regulated_left_inverse (e : RubberEngine) (atm : AtmQ) (mach rate : ℚ)
    (setting : EngineSetting)
    (hF : 0 < max_thrust e atm mach) (hlo : 1 / 10 ≤ rate) (hhi : rate ≤ 2) :
    |(compute_regulated e atm mach
        (compute_manual e atm mach rate setting).1 setting).2 - rate|
      ≤ rate / 100 := by
  have hfst : (compute_manual e atm mach rate setting).1
      = max_thrust e atm mach * rate := rfl
  have hg : ∀ x, max_thrust e atm mach * x
      - (compute_manual e atm mach rate setting).1 ≤ 0 ↔ x ≤ rate := by
    intro x
    rw [hfst]
    constructor
    · intro h
      exact le_of_mul_le_mul_left (sub_nonpos.mp h) hF
    · intro h
      have := mul_le_mul_of_nonneg_left h hF.le
      linarith
  have hb := bisect_approaches _ rate hg 60 0 2 (by linarith) hhi
  have hsnd : (compute_regulated e atm mach
      (compute_manual e atm mach rate setting).1 setting).2
      = bisect (fun r => max_thrust e atm mach * r
          - (compute_manual e atm mach rate setting).1) 60 0 2 := rfl
  rw [hsnd]
  refine le_trans hb ?_
  rw [div_le_div_iff₀ (by positivity) (by norm_num)]
  nlinarith

/-- Witness for C2, at the condition of the in-tree `test_compute_regulated`
first check: the bypass-5, OPR-30 engine at Mach 0, sea level, thrust rate
0.8, MTO rating. -/
theorem regulated_left_inverse_witness :
    |(compute_regulated ⟨5, 30, 1500, 1, 10000⟩ seaLevel 0
        (compute_manual ⟨5, 30, 1500, 1, 10000⟩ seaLevel 0 0.8 .MTO).1 .MTO).2
      - 0.8| ≤ 0.8 / 100 :=
  regulated_left_inverse ⟨5, 30, 1500, 1, 10000⟩ seaLevel 0 0.8 .MTO
    (by norm_num [max_thrust, seaLevel]) (by norm_num) (by norm_num)

/-- C3: for the rubber engine with bypass ratio 5, overall pressure ratio 30,
turbine inlet temperature 1500 K and design f0 = 1, `compute_manual` at
Mach 0, altitude 0, thrust rate 0.8 and MTO rating returns thrust equal to
0.955 * 0.8 within 1 percent relative tolerance and SFC equal to 0.993e-5
within 1 percent relative tolerance. -/
theorem manual_mto_sea_level_scenario :
    |(compute_manual ⟨5, 30, 1500, 1, 10000⟩ seaLevel 0 0.8 .MTO).1
        - 0.955 * 0.8| ≤ 0.01 * (0.955 * 0.8)
    ∧ ExtQ.close (compute_manual ⟨5, 30, 1500, 1, 10000⟩ seaLevel 0 0.8 .MTO).2
        0.993e-5 (0.01 * 0.993e-5) = true := by
  constructor
  · norm_num [compute_manual, max_thrust, seaLevel]
  · norm_num [compute_manual, max_thrust, sfc_at_max_thrust, sfc_ratio,
      seaLevel, pdiv, ExtQ.mul, ExtQ.add, ExtQ.close, min_def, abs_le]

/-- C6: the SFC altitude correction is total - it returns a finite value at
every altitude except the singular offset where the thrust rate of minimum
SFC ratio reaches 1 (altitude = design altitude - 1562.5 m, where the
correction's denominator vanishes); at that singular point it returns
positive infinity instead of raising, and close to it (offset -1564 m) it
returns a finite but very large value (at least 3000). -/
theorem sfc_ratio_total_and_singular (design_altitude altitude thrust_rate : ℚ) :
    (-9.6e-5 * (altitude - design_altitude) + 0.85 ≠ 1 →
      ∃ q, sfc_ratio design_altitude altitude thrust_rate = .finite q)
    ∧ sfc_ratio design_altitude (design_altitude - 1562.5) 0.8 = .posInf
    ∧ (∃ q, sfc_ratio design_altitude (design_altitude - 1564) 0.8 = .finite q
        ∧ 3000 ≤ q) := by
  refine ⟨?_, ?_, ?_⟩
  · intro hfms
    have hd : (1 - (-9.6e-5 * (altitude - design_altitude) + 0.85)) ^ 2 ≠ 0 := by
      apply pow_ne_zero
      intro hzero
      exact hfms (by linarith)
    refine ⟨(1 - min 0.998 (-3.385e-5 * (altitude - design_altitude) + 0.995)) /
        (1 - (-9.6e-5 * (altitude - design_altitude) + 0.85)) ^ 2 *
        (thrust_rate - (-9.6e-5 * (altitude - design_altitude) + 0.85)) ^ 2
      + min 0.998 (-3.385e-5 * (altitude - design_altitude) + 0.995), ?_⟩
    simp only [sfc_ratio, pdiv, if_neg hd, ExtQ.mul, ExtQ.add]
  · have e1 : design_altitude - 1562.5 - design_altitude = (-1562.5 : ℚ) := by
      ring
    norm_num [sfc_ratio, e1, pdiv, ExtQ.mul, ExtQ.add, min_def]
  · have e1 : design_altitude - 1564 - design_altitude = (-1564 : ℚ) := by ring
    refine ⟨313031 / 81, ?_, by norm_num⟩
    norm_num [sfc_ratio, e1, pdiv, ExtQ.mul, ExtQ.add, min_def]

/-- Witness for C6: at design altitude 10 000 m the correction is finite at
sea level and positive infinity at the singular altitude 8437.5 m. -/
theorem sfc_ratio_total_and_singular_witness :
    (∃ q, sfc_ratio 10000 0 0.8 = .finite q)
    ∧ sfc_ratio 10000 (10000 - 1562.5) 0.8 = .posInf :=
  ⟨(sfc_ratio_total_and_singular 10000 0 0.8).1 (by norm_num),
    (sfc_ratio_total_and_singular 10000 0 0.8).2.1⟩

/-- Unfolding of the integration loop at a stopping step: when the next step
reaches or passes the target in the direction of the rate, the loop returns
the single interpolated terminal point. -/
theorem stepToAltitude_stop (tgt rate dt : ℚ) (n : Nat) (p : FlightPoint)
    (hcond : (0 < rate ∧ tgt ≤ p.altitude + rate * dt)
      ∨ (rate < 0 ∧ p.altitude + rate * dt ≤ tgt)) :
    stepToAltitude tgt rate dt (n + 1) p
      = [{ p with time := p.time + (tgt - p.altitude) / rate, altitude := tgt }] := by
  simp only [stepToAltitude]
  rw [if_pos hcond]

/-- Unfolding of the integration loop at a regular step: when the next step
does not yet reach the target, the loop emits the stepped point and
continues from it. -/
theorem stepToAltitude_go (tgt rate dt : ℚ) (n : Nat) (p : FlightPoint)
    (hcond : ¬((0 < rate ∧ tgt ≤ p.altitude + rate * dt)
      ∨ (rate < 0 ∧ p.altitude + rate * dt ≤ tgt))) :
    stepToAltitude tgt rate dt (n + 1) p
      = { p with time := p.time + dt, altitude := p.altitude + rate * dt }
        :: stepToAltitude tgt rate dt n
          { p with time := p.time + dt, altitude := p.altitude + rate * dt } := by
  simp only [stepToAltitude]
  rw [if_neg hcond]

/-- Ascending case of the integration loop: with a positive rate, a target
above the current altitude, and fuel covering the required number of steps,
the last point lands exactly on the target and every emitted point stays
between the current altitude and the target. -/
theorem stepToAltitude_climb (tgt rate dt : ℚ) (hr : 0 < rate) (hdt : 0 < dt) :
    ∀ (n : Nat) (p : FlightPoint), p.altitude < tgt →
      tgt - p.altitude ≤ (n : ℚ) * (rate * dt) →
      ((stepToAltitude tgt rate dt n p).getLastD p).altitude = tgt
      ∧ ∀ q ∈ stepToAltitude tgt rate dt n p,
          p.altitude ≤ q.altitude ∧ q.altitude ≤ tgt := by
  intro n
  induction n with
  | zero =>
    intro p hlt hle
    exfalso
    norm_num at hle
    linarith
  | succ n ih =>
    intro p hlt hle
    by_cases h : tgt ≤ p.altitude + rate * dt
    · rw [stepToAltitude_stop tgt rate dt n p (Or.inl ⟨hr, h⟩)]
      constructor
      · simp [List.getLastD]
      · intro q hq
        simp only [List.mem_singleton] at hq
        subst hq
        exact ⟨le_of_lt hlt, le_refl tgt⟩
    · push_neg at h
      have hnc : ¬((0 < rate ∧ tgt ≤ p.altitude + rate * dt)
          ∨ (rate < 0 ∧ p.altitude + rate * dt ≤ tgt)) := by
        rintro (⟨-, hc⟩ | ⟨hc, -⟩)
        · exact absurd hc (not_le.mpr h)
        · linarith
      rw [stepToAltitude_go tgt rate dt n p hnc]
      have hstep : (0 : ℚ) < rate * dt := mul_pos hr hdt
      have hle' : tgt - (p.altitude + rate * dt) ≤ (n : ℚ) * (rate * dt) := by
        push_cast at hle
        linarith
      have hrec := ih { p with time := p.time + dt, altitude := p.altitude + rate * dt } h hle'
      constructor
      · rw [List.getLastD_cons]
        exact hrec.1
      · intro q hq
        rcases List.mem_cons.mp hq with hq | hq
        · subst hq
          exact ⟨by simp; linarith, le_of_lt h⟩
        · have hm := hrec.2 q hq
          refine ⟨le_trans ?_ hm.1, hm.2⟩
          simp
          linarith

/-- Descending case of the integration loop: with a negative rate, a target
below the current altitude, and fuel covering the required number of steps,
the last point lands exactly on the target and every emitted point stays
between the target and the current altitude. -/
theorem stepToAltitude_descend (tgt rate dt : ℚ) (hr : rate < 0) (hdt : 0 < dt) :
    ∀ (n : Nat) (p : FlightPoint), tgt < p.altitude →
      p.altitude - tgt ≤ (n : ℚ) * (-rate * dt) →
      ((stepToAltitude tgt rate dt n p).getLastD p).altitude = tgt
      ∧ ∀ q ∈ stepToAltitude tgt rate dt n p,
          tgt ≤ q.altitude ∧ q.altitude ≤ p.altitude := by
  intro n
  induction n with
  | zero =>
    intro p hgt hle
    exfalso
    norm_num at hle
    linarith
  | succ n ih =>
    intro p hgt hle
    by_cases h : p.altitude + rate * dt ≤ tgt
    · rw [stepToAltitude_stop tgt rate dt n p (Or.inr ⟨hr, h⟩)]
      constructor
      · simp [List.getLastD]
      · intro q hq
        simp only [List.mem_singleton] at hq
        subst hq
        exact ⟨le_refl tgt, le_of_lt hgt⟩
    · push_neg at h
      have hnc : ¬((0 < rate ∧ tgt ≤ p.altitude + rate * dt)
          ∨ (rate < 0 ∧ p.altitude + rate * dt ≤ tgt)) := by
        rintro (⟨hc, -⟩ | ⟨-, hc⟩)
        · linarith
        · exact absurd hc (not_le.mpr h)
      rw [stepToAltitude_go tgt rate dt n p hnc]
      have hstep : rate * dt < 0 := mul_neg_of_neg_of_pos hr hdt
      have hle' : (p.altitude + rate * dt) - tgt ≤ (n : ℚ) * (-rate * dt) := by
        push_cast at hle
        linarith
      have hrec := ih { p with time := p.time + dt, altitude := p.altitude + rate * dt } h hle'
      constructor
      · rw [List.getLastD_cons]
        exact hrec.1
      · intro q hq
        rcases List.mem_cons.mp hq with hq | hq
        · subst hq
          exact ⟨le_of_lt h, by simp; linarith⟩
        · have hm := hrec.2 q hq
          refine ⟨hm.1, le_trans hm.2 ?_⟩
          simp
          linarith

/-- C4: an `AltitudeChangeSegment` whose target is a literal altitude, with a
time step in the 0.2 s - 5 s range and a climb rate consistent with the
required direction (positive when the target is above the start point,
negative when it is below), terminates (any fuel covering the required number
of steps suffices), its last flight point's altitude equals the target
altitude exactly, and every point of the sequence stays between the start
altitude and the target - the target is neither undershot nor overshot, the
last step being time-interpolated to land on it. -/
theorem altitude_change_exact_target (s : AltitudeChangeSegment) (tgt : ℚ)
    (start : FlightPoint) (fuel : ℕ)
    (htgt : s.target.altitude = .lit tgt)
    (hdt1 : 1 / 5 ≤ s.time_step) (hdt5 : s.time_step ≤ 5)
    (hdir : (start.altitude < tgt ∧ 0 < s.climb_rate)
      ∨ (tgt < start.altitude ∧ s.climb_rate < 0))
    (hfuel : |tgt - start.altitude|
      ≤ (fuel : ℚ) * (|s.climb_rate| * s.time_step)) :
    ((s.compute_from fuel start).getLastD start).altitude = tgt
    ∧ ∀ q ∈ s.compute_from fuel start,
        min start.altitude tgt ≤ q.altitude
        ∧ q.altitude ≤ max start.altitude tgt := by
  have hdt : 0 < s.time_step := by linarith
  have hseq : s.compute_from fuel start
      = start :: stepToAltitude tgt s.climb_rate s.time_step fuel start := by
    unfold AltitudeChangeSegment.compute_from
    rw [htgt]
  rw [hseq]
  rcases hdir with ⟨hlt, hr⟩ | ⟨hgt, hr⟩
  · rw [abs_of_pos (by linarith : (0 : ℚ) < tgt - start.altitude),
      abs_of_pos hr] at hfuel
    have hmain := stepToAltitude_climb tgt s.climb_rate s.time_step hr hdt
      fuel start hlt hfuel
    rw [min_eq_left (le_of_lt hlt), max_eq_right (le_of_lt hlt)]
    constructor
    · rw [List.getLastD_cons]
      exact hmain.1
    · intro q hq
      rcases List.mem_cons.mp hq with hq | hq
      · subst hq
        exact ⟨le_refl _, le_of_lt hlt⟩
      · exact hmain.2 q hq
  · rw [abs_of_neg (by linarith : tgt - start.altitude < 0),
      abs_of_neg hr, neg_sub] at hfuel
    have hmain := stepToAltitude_descend tgt s.climb_rate s.time_step hr hdt
      fuel start hgt hfuel
    rw [min_eq_right (le_of_lt hgt), max_eq_left (le_of_lt hgt)]
    constructor
    · rw [List.getLastD_cons]
      exact hmain.1
    · intro q hq
      rcases List.mem_cons.mp hq with hq | hq
      · subst hq
        exact ⟨le_of_lt hgt, le_refl _⟩
      · exact hmain.2 q hq

/-- Witness for C4, exercising the descending case: a segment descending at
-10 m/s with a 1 s time step from altitude 1000 m toward the literal target
500 m lands exactly on 500 m, every point staying between 500 m and
1000 m. -/
theorem altitude_change_exact_target_witness :
    ((AltitudeChangeSegment.compute_from
        ⟨⟨.lit 500, .free, .hold, .free⟩, -10, 1⟩ 100
        ⟨0, 1000, 60000, 0, 70⟩).getLastD ⟨0, 1000, 60000, 0, 70⟩).altitude = 500
    ∧ ∀ q ∈ AltitudeChangeSegment.compute_from
        ⟨⟨.lit 500, .free, .hold, .free⟩, -10, 1⟩ 100 ⟨0, 1000, 60000, 0, 70⟩,
        min (1000 : ℚ) 500 ≤ q.altitude ∧ q.altitude ≤ max (1000 : ℚ) 500 :=
  altitude_change_exact_target ⟨⟨.lit 500, .free, .hold, .free⟩, -10, 1⟩ 500
    ⟨0, 1000, 60000, 0, 70⟩ 100 rfl (by norm_num) (by norm_num)
    (Or.inr (by norm_num)) (by norm_num)

/-- C5: a segment whose target leaves zero goal variables, or two or more
goal variables, is rejected with the descriptive error message at
construction time - the error surfaces from `build`, before the integration
loop (which is a total function) ever runs - while a well-formed target with
exactly one goal variable always yields a flight-point sequence. -/
theorem malformed_target_rejected (target : Target) (climb_rate time_step : ℚ)
    (fuel : ℕ) (start : FlightPoint) :
    (target.litCount = 0 ∨ 2 ≤ target.litCount →
      AltitudeChangeSegment.compute_flight target climb_rate time_step fuel
        start = .error target_error_message)
    ∧ (target.litCount = 1 →
      ∃ points, AltitudeChangeSegment.compute_flight target climb_rate
        time_step fuel start = .ok points) := by
  constructor
  · intro h
    have hne : target.litCount ≠ 1 := by
      rcases h with h | h <;> omega
    unfold AltitudeChangeSegment.compute_flight AltitudeChangeSegment.build
    rw [if_neg hne]
    rfl
  · intro h
    unfold AltitudeChangeSegment.compute_flight AltitudeChangeSegment.build
    rw [if_pos h]
    exact ⟨_, rfl⟩

/-- Witness for C5: a target carrying two literal goals (altitude and Mach)
is rejected at construction with the descriptive message. -/
theorem malformed_target_rejected_witness :
    AltitudeChangeSegment.compute_flight ⟨.lit 1000, .lit 0.8, .free, .free⟩
      10 1 5 ⟨0, 0, 60000, 0, 70⟩ = .error target_error_message :=
  (malformed_target_rejected ⟨.lit 1000, .lit 0.8, .free, .free⟩ 10 1 5
    ⟨0, 0, 60000, 0, 70⟩).1
    (Or.inr (by norm_num [Target.litCount, TargetField.isLit]))

/-- The temperature ratio of the troposphere branch is positive at every
altitude of that branch. -/
theorem theta_pos {h : ℝ} (hh : h ≤ 11000) :
    0 < (288.15 - 0.0065 * h) / 288.15 := by
  apply div_pos _ (by norm_num)
  nlinarith

/-- Closed form of the density in the troposphere branch: a positive constant
times the temperature ratio raised to the power 4.25588. -/
theorem tropo_density (h : ℝ) (hh : h ≤ 11000) :
    atm_density h = 101325 / (287.05 * 288.15)
      * ((288.15 - 0.0065 * h) / 288.15) ^ (4.25588 : ℝ) := by
  unfold atm_density atm_pressure atm_temperature
  rw [if_pos hh, if_pos hh]
  have hθ : (0 : ℝ) < (288.15 - 0.0065 * h) / 288.15 := theta_pos hh
  have hpow : ((288.15 - 0.0065 * h) / 288.15) ^ (5.25588 : ℝ)
      = ((288.15 - 0.0065 * h) / 288.15) ^ (4.25588 : ℝ)
        * ((288.15 - 0.0065 * h) / 288.15) := by
    calc ((288.15 - 0.0065 * h) / 288.15) ^ (5.25588 : ℝ)
        = ((288.15 - 0.0065 * h) / 288.15) ^ ((4.25588 : ℝ) + 1) := by norm_num
      _ = ((288.15 - 0.0065 * h) / 288.15) ^ (4.25588 : ℝ)
          * ((288.15 - 0.0065 * h) / 288.15) ^ (1 : ℝ) := Real.rpow_add hθ _ _
      _ = ((288.15 - 0.0065 * h) / 288.15) ^ (4.25588 : ℝ)
          * ((288.15 - 0.0065 * h) / 288.15) := by rw [Real.rpow_one]
  rw [hpow]
  have hT : (288.15 : ℝ) - 0.0065 * h ≠ 0 := by nlinarith
  field_simp
  ring

/-- Density is non-increasing within the troposphere branch. -/
theorem tropo_antitone (h1 h2 : ℝ) (h12 : h1 ≤ h2) (hh2 : h2 ≤ 11000) :
    atm_density h2 ≤ atm_density h1 := by
  rw [tropo_density h1 (le_trans h12 hh2), tropo_density h2 hh2]
  apply mul_le_mul_of_nonneg_left _ (by norm_num)
  apply Real.rpow_le_rpow (theta_pos hh2).le _ (by norm_num)
  gcongr

/-- Closed form of the density in the stratosphere branch: a positive
constant times a decaying exponential of the altitude above the boundary. -/
theorem strato_density (h : ℝ) (hh : ¬h ≤ 11000) :
    atm_density h = (101325 * ((216.65 : ℝ) / 288.15) ^ (5.25588 : ℝ)
        / (287.05 * 216.65))
      * Real.exp (-(9.80665 / (287.05 * 216.65)) * (h - 11000)) := by
  unfold atm_density atm_pressure atm_temperature
  rw [if_neg hh, if_neg hh]
  ring

/-- At the 11 000 m boundary the troposphere branch takes exactly the value
the stratosphere branch decays from: the model is continuous there. -/
theorem boundary_density :
    atm_density 11000 = 101325 * ((216.65 : ℝ) / 288.15) ^ (5.25588 : ℝ)
      / (287.05 * 216.65) := by
  rw [tropo_density 11000 (by norm_num)]
  have e1 : ((288.15 : ℝ) - 0.0065 * 11000) / 288.15 = 216.65 / 288.15 := by
    norm_num
  rw [e1]
  have hθ : (0 : ℝ) < (216.65 : ℝ) / 288.15 := by norm_num
  have hpow : ((216.65 : ℝ) / 288.15) ^ (5.25588 : ℝ)
      = ((216.65 : ℝ) / 288.15) ^ (4.25588 : ℝ) * ((216.65 : ℝ) / 288.15) := by
    calc ((216.65 : ℝ) / 288.15) ^ (5.25588 : ℝ)
        = ((216.65 : ℝ) / 288.15) ^ ((4.25588 : ℝ) + 1) := by norm_num
      _ = ((216.65 : ℝ) / 288.15) ^ (4.25588 : ℝ)
          * ((216.65 : ℝ) / 288.15) ^ (1 : ℝ) := Real.rpow_add hθ _ _
      _ = ((216.65 : ℝ) / 288.15) ^ (4.25588 : ℝ) * ((216.65 : ℝ) / 288.15) :=
          by rw [Real.rpow_one]
  rw [hpow]
  field_simp
  ring

/-- C7: atmosphere density is monotonically non-increasing in altitude - for
every pair of altitudes h1 ≤ h2 of the modelled piecewise standard
atmosphere, the density at h2 is at most the density at h1. -/
theorem atm_density_antitone (h1 h2 : ℝ) (h12 : h1 ≤ h2) :
    atm_density h2 ≤ atm_density h1 := by
  by_cases hh2 : h2 ≤ 11000
  · exact tropo_antitone h1 h2 h12 hh2
  · have hcoef : (0 : ℝ) < 101325 * ((216.65 : ℝ) / 288.15) ^ (5.25588 : ℝ)
        / (287.05 * 216.65) := by
      apply div_pos
      · apply mul_pos (by norm_num)
        exact Real.rpow_pos_of_pos (by norm_num) _
      · norm_num
    by_cases hh1 : h1 ≤ 11000
    · have hstr : atm_density h2 ≤ atm_density 11000 := by
        rw [strato_density h2 hh2, boundary_density]
        nth_rewrite 2 [show (101325 * ((216.65 : ℝ) / 288.15) ^ (5.25588 : ℝ)
            / (287.05 * 216.65)) = (101325
              * ((216.65 : ℝ) / 288.15) ^ (5.25588 : ℝ)
            / (287.05 * 216.65)) * 1 by ring]
        apply mul_le_mul_of_nonneg_left _ hcoef.le
        rw [show (1 : ℝ) = Real.exp 0 by rw [Real.exp_zero]]
        apply Real.exp_le_exp.mpr
        push_neg at hh2
        have : (0 : ℝ) < 9.80665 / (287.05 * 216.65) := by norm_num
        nlinarith
      exact le_trans hstr (tropo_antitone h1 11000 hh1 (by norm_num))
    · rw [strato_density h1 hh1, strato_density h2 hh2]
      apply mul_le_mul_of_nonneg_left _ hcoef.le
      apply Real.exp_le_exp.mpr
      have : (0 : ℝ) < 9.80665 / (287.05 * 216.65) := by norm_num
      nlinarith

/-- Witness for C7: density at the 11 000 m tropopause does not exceed
sea-level density. -/
theorem atm_density_antitone_witness :
    atm_density 11000 ≤ atm_density 0 :=
  atm_density_antitone 0 11000 (by norm_num)

/-- C9: the XFOIL polar post-processing always produces a `Cl_max_2D` value -
the fallback constant 1.9 when the result file is missing or when the maximum
computed angle of attack stays below 5 degrees, and the maximum of the
computed CL column otherwise - and `CL_max_clean` always equals
`Cl_max_2D * 0.9 * cos(sweep_25 in radians)`. -/
theorem xfoil_cl_max_outputs (alpha lift_coeff : List ℚ) (sweep_25 : ℝ) :
    cl_max_2d none = 1.9
    ∧ (pymax alpha < 5 → cl_max_2d (some (alpha, lift_coeff)) = 1.9)
    ∧ (5 ≤ pymax alpha →
        cl_max_2d (some (alpha, lift_coeff)) = pymax lift_coeff)
    ∧ ∀ result : Option (List ℚ × List ℚ),
        cl_max_clean result sweep_25
          = (cl_max_2d result : ℝ) * 0.9
            * Real.cos (sweep_25 * Real.pi / 180) := by
  refine ⟨rfl, ?_, ?_, fun _ => rfl⟩
  · intro h
    simp [cl_max_2d, get_max_cl, not_le.mpr h]
  · intro h
    simp [cl_max_2d, get_max_cl, h]

/-- Witness for C9: a result file whose maximum angle of attack is 6 degrees
yields the maximum of its CL column, 1.5. -/
theorem xfoil_cl_max_outputs_witness :
    cl_max_2d (some ([6], [(3 : ℚ) / 2])) = 3 / 2 := by
  have h := (xfoil_cl_max_outputs [6] [(3 : ℚ) / 2] 0).2.2.1
    (by norm_num [pymax])
  simpa [pymax] using h

/-- C10: the key-building invariant of
`FASTConfigurationBaseKeyBuildingError(err, key, value)` - when `err` is
itself such an error (it has a `key` attribute), the new error's key is the
new key dot-joined to `err.key` and its original exception is
`err.original_exception`; otherwise the new error's key is the given key, its
value the given value and its original exception `err` itself. -/
theorem key_building_error_invariant (err : PyExc) (key : String)
    (value : PyObj) :
    (∀ errKey errValue errOriginal,
      err = .keyBuilding errKey errValue errOriginal →
        (mkFASTConfigurationBaseKeyBuildingError err key value).keyAttr
            = some (key ++ "." ++ errKey)
        ∧ (mkFASTConfigurationBaseKeyBuildingError err key value).originalAttr
            = some errOriginal)
    ∧ (∀ message, err = .plain message →
        (mkFASTConfigurationBaseKeyBuildingError err key value).keyAttr
            = some key
        ∧ (mkFASTConfigurationBaseKeyBuildingError err key value).valueAttr
            = some value
        ∧ (mkFASTConfigurationBaseKeyBuildingError err key value).originalAttr
            = some err) := by
  constructor
  · rintro errKey errValue errOriginal rfl
    exact ⟨rfl, rfl⟩
  · rintro message rfl
    exact ⟨rfl, rfl, rfl⟩

/-- Witness for C10: wrapping a plain exception records the given key, the
given value and the plain exception itself as original exception. -/
theorem key_building_error_invariant_witness :
    (mkFASTConfigurationBaseKeyBuildingError (.plain "boom") "problem"
        (.pyStr "x")).keyAttr = some "problem"
    ∧ (mkFASTConfigurationBaseKeyBuildingError (.plain "boom") "problem"
        (.pyStr "x")).originalAttr = some (.plain "boom") :=
  ⟨((key_building_error_invariant (.plain "boom") "problem"
      (.pyStr "x")).2 "boom" rfl).1,
    ((key_building_error_invariant (.plain "boom") "problem"
      (.pyStr "x")).2 "boom" rfl).2.2⟩

/-! Model validation: the reconstructed engine correlations reproduce the
expected values asserted by the repository's own test files (relative
tolerance 1e-2 for `test_sfc_at_max_thrust`, 1e-3 for `test_sfc_ratio`). -/

example : ExtQ.close ( sfc_ratio 10000 (10000 - 2370) 0.8) 1.024 1.024e-3 = true := by
  norm_num [sfc_ratio, pdiv, ExtQ.mul, ExtQ.add, ExtQ.close, min_def, abs_le]

example : ExtQ.close ( sfc_ratio 10000 (10000 - 1564) 0.8) 3864.6 3864.6e-3 = true := by
  norm_num [sfc_ratio, pdiv, ExtQ.mul, ExtQ.add, ExtQ.close, min_def, abs_le]

example : sfc_ratio 10000 (10000 - 1562.5) 0.8 = .posInf := by
  norm_num [sfc_ratio, pdiv, ExtQ.mul, ExtQ.add, min_def]

example : ExtQ.close ( sfc_ratio 10000 (10000 - 1560) 0.8) 1386.6 1386.6e-3 = true := by
  norm_num [sfc_ratio, pdiv, ExtQ.mul, ExtQ.add, ExtQ.close, min_def, abs_le]

example : ExtQ.close ( sfc_ratio 10000 (10000 - 846) 0.8) 1.005 1.005e-3 = true := by
  norm_num [sfc_ratio, pdiv, ExtQ.mul, ExtQ.add, ExtQ.close, min_def, abs_le]

example : ExtQ.close ( sfc_ratio 10000 (10000 + 678) 0.8) 0.972 0.972e-3 = true := by
  norm_num [sfc_ratio, pdiv, ExtQ.mul, ExtQ.add, ExtQ.close, min_def, abs_le]

example : ExtQ.close ( sfc_ratio 10000 (10000 + 2202) 0.8) 0.936 0.936e-3 = true := by
  norm_num [sfc_ratio, pdiv, ExtQ.mul, ExtQ.add, ExtQ.close, min_def, abs_le]

example : ExtQ.close ( sfc_ratio 10000 (10000 + 3726) 0.8) 0.917 0.917e-3 = true := by
  norm_num [sfc_ratio, pdiv, ExtQ.mul, ExtQ.add, ExtQ.close, min_def, abs_le]

example : |sfc_at_max_thrust ⟨6, 25.7, 0, 0, 0⟩ seaLevel 0 - 0.970e-5| ≤ 0.970e-7 := by
  norm_num [sfc_at_max_thrust, seaLevel, abs_le]

example : |sfc_at_max_thrust ⟨7.14, 41, 0, 0, 0⟩ seaLevel 0 - 0.735e-5| ≤ 0.735e-7 := by
  norm_num [sfc_at_max_thrust, seaLevel, abs_le]

example : |sfc_at_max_thrust ⟨6, 31.8, 0, 0, 0⟩ seaLevel 0 - 0.906e-5| ≤ 0.906e-7 := by
  norm_num [sfc_at_max_thrust, seaLevel, abs_le]
